import Mathlib

/-!
Verification of the re-excel conversion core (src/re_excel/src/main.rs).

The Rust program ingests delimited text or multi-sheet workbook data into a
canonical `Workbook` model and serializes it to json/yaml/xml/sql.  This file
shallowly embeds the data model, the coordinate codec `col_to_letter`, the
cell-value classification performed inside `parse_excel`, the two ingestion
adapters `parse_csv` and `parse_excel` (with the external byte-level decoding
collaborators abstracted as record streams / range sources, as the spec's
section 6 describes them), and the `to_sql` serializer, and proves the spec's
claims about them.

Machine integers: the Rust code uses `u32`/`usize`; casts `as u32` are
embedded as explicit reduction modulo 2^32 on `Nat`.
-/

/-- Reduction modulo 2^32, the meaning of a Rust `as u32` cast. -/
def asU32 (n : Nat) : Nat := n % 4294967296

/-- Bounded loop body of `fn col_to_letter` (main.rs lines 201-209).  The Rust
`while col > 0` loop strictly decreases `col`, so it runs at most `col`
iterations; the first argument is that fuel bound, which makes the definition
structurally recursive and hence computable by the kernel.  Each iteration
prepends the letter for `(col - 1) % 26` and continues with `(col - 1) / 26`;
the recursion appends the current lowest letter after the letters of the
remaining quotient, which is the same order. -/
def col_to_letter_go : Nat → Nat → List Char
  | _, 0 => []
  | 0, _ + 1 => []
  | fuel + 1, col + 1 => col_to_letter_go fuel (col / 26) ++ [Char.ofNat (65 + col % 26)]

/-- Embedding of `fn col_to_letter(mut col: u32) -> String` (main.rs 201-209). -/
def col_to_letter (col : Nat) : String := String.mk (col_to_letter_go col col)

/-- Standard bijective base-26 inverse used by the spec's round-trip law:
read the letters left to right, each letter A..Z contributing 1..26. -/
def decode_letters (s : String) : Nat :=
  s.data.foldl (fun acc c => acc * 26 + (c.toNat - 64)) 0

theorem char_ofNat_letter_toNat (r : Nat) (h : r < 26) :
    (Char.ofNat (65 + r)).toNat = 65 + r := by
  interval_cases r <;> decide

theorem col_to_letter_go_foldl (fuel : Nat) : ∀ col acc, col ≤ fuel →
    (col_to_letter_go fuel col).foldl (fun a c => a * 26 + (c.toNat - 64)) acc
      = acc * 26 ^ (col_to_letter_go fuel col).length + col := by
  induction fuel with
  | zero =>
    intro col acc hle
    interval_cases col
    simp [col_to_letter_go]
  | succ fuel ih =>
    intro col acc hle
    match col with
    | 0 => simp [col_to_letter_go]
    | c + 1 =>
      have hrec : c / 26 ≤ fuel := le_trans (Nat.div_le_self c 26) (Nat.lt_succ_iff.mp hle)
      have hchar : (Char.ofNat (65 + c % 26)).toNat = 65 + c % 26 :=
        char_ofNat_letter_toNat _ (Nat.mod_lt _ (by omega))
      have hdm : 26 * (c / 26) + c % 26 = c := Nat.div_add_mod c 26
      simp only [col_to_letter_go, List.foldl_append, List.foldl_cons, List.foldl_nil,
        List.length_append, List.length_singleton, ih (c / 26) acc hrec, hchar]
      have hpow : 26 ^ ((col_to_letter_go fuel (c / 26)).length + 1)
          = 26 ^ (col_to_letter_go fuel (c / 26)).length * 26 := pow_succ 26 _
      rw [hpow]
      generalize (26 : Nat) ^ (col_to_letter_go fuel (c / 26)).length = P
      have h65 : 65 + c % 26 - 64 = c % 26 + 1 := by omega
      rw [h65]
      ring_nf
      omega

/-- C2: for every positive integer `n`, `col_to_letter n` is the bijective
base-26 encoding with no letter for zero: the standard inverse decode maps it
back to `n`, and the concrete anchors 1↦"A", 26↦"Z", 27↦"AA", 702↦"ZZ",
703↦"AAA" hold. -/
theorem col_to_letter_bijective_base26 :
    (∀ n : Nat, 0 < n → decode_letters (col_to_letter n) = n) ∧
    col_to_letter 1 = "A" ∧ col_to_letter 26 = "Z" ∧ col_to_letter 27 = "AA" ∧
    col_to_letter 702 = "ZZ" ∧ col_to_letter 703 = "AAA" := by
  refine ⟨fun n _ => ?_, by decide, by decide, by decide, by decide, by decide⟩
  have h := col_to_letter_go_foldl n n 0 le_rfl
  simpa [decode_letters, col_to_letter] using h

/-- Witness instantiating the round-trip law of C2 at the concrete column 28. -/
theorem col_to_letter_bijective_base26_witness :
    0 < 28 ∧ decode_letters (col_to_letter 28) = 28 :=
  ⟨by decide, col_to_letter_bijective_base26.1 28 (by decide)⟩

/-- Embedding of `struct SheetMetadata` (main.rs 14-19). -/
structure SheetMetadata where
  name : String
  index : Nat
  hidden : Bool
deriving Repr, DecidableEq

/-- Embedding of `struct CellData` (main.rs 21-30); `row`/`col` are `u32`. -/
structure CellData where
  sheet : String
  address : String
  row : Nat
  col : Nat
  data_type : String
  value : String
  formula : Option String
deriving Repr, DecidableEq

/-- Embedding of `struct MergedRange` (main.rs 32-37); `end` is a Lean keyword,
so that field is named `end_`. -/
structure MergedRange where
  sheet : String
  start : String
  end_ : String
deriving Repr, DecidableEq

/-- Embedding of `struct Workbook` (main.rs 7-12). -/
structure Workbook where
  sheets : List SheetMetadata
  cells : List CellData
  merged_ranges : List MergedRange
deriving Repr, DecidableEq

/-- The single-quote character, written via its code point 39. -/
def quoteChar : Char := Char.ofNat 39

/-- A one-character string holding one single quote. -/
def quoteStr : String := String.mk [quoteChar]

/-- A two-character string holding two single quotes. -/
def quote2Str : String := String.mk [quoteChar, quoteChar]

/-- Embedding of the Rust `str::replace` call with the single-quote character
as pattern and two single quotes as replacement, as used throughout `to_sql`
(main.rs 218, 223, 227, 228). -/
def replace_quotes (s : String) : String :=
  String.mk (List.flatten (s.data.map fun c => if c = quoteChar then [quoteChar, quoteChar] else [c]))

/-- The fixed CREATE TABLE line of `to_sql` (main.rs 213-215). -/
def create_line : String :=
  "CREATE TABLE cell_data (sheet TEXT, address TEXT, row INTEGER, col INTEGER, data_type TEXT, value TEXT, formula TEXT);\n"

/-- Rendering of the `formula` column (main.rs 217-220): quoted with doubled
embedded quotes when present, the bare literal NULL when absent. -/
def formula_sql : Option String → String
  | some f => quoteStr ++ replace_quotes f ++ quoteStr
  | none => "NULL"

/-- One INSERT statement of `to_sql` (main.rs 221-230).  Note the source
escapes `sheet`, `data_type`, `value` and `formula` but interpolates
`address` verbatim. -/
def insert_line (cell : CellData) : String :=
  "INSERT INTO cell_data VALUES (" ++ quoteStr ++ replace_quotes cell.sheet ++ quoteStr ++ "," ++
    quoteStr ++ cell.address ++ quoteStr ++ "," ++ toString cell.row ++ "," ++ toString cell.col ++ "," ++
    quoteStr ++ replace_quotes cell.data_type ++ quoteStr ++ "," ++
    quoteStr ++ replace_quotes cell.value ++ quoteStr ++ "," ++
    formula_sql cell.formula ++ ");\n"

/-- Embedding of `fn to_sql` (main.rs 211-233): a fold over the cells
mirroring the push_str accumulation loop. -/
def to_sql (wb : Workbook) : String :=
  wb.cells.foldl (fun sql cell => sql ++ insert_line cell) create_line

/-- Concatenation of a list of strings, head first. -/
def joinStrings : List String → String
  | [] => ""
  | x :: xs => x ++ joinStrings xs

/-- Escaping rule exactly as the spec words it: every embedded single-quote
character is doubled, every other character is unchanged. -/
def spec_escape : List Char → List Char
  | [] => []
  | c :: cs =>
      if c = quoteChar then quoteChar :: quoteChar :: spec_escape cs
      else c :: spec_escape cs

/-- A quoted SQL string literal as the spec words it: a single quote, the
quote-doubled body, a single quote. -/
def spec_quote (s : String) : String :=
  quoteStr ++ String.mk (spec_escape s.data) ++ quoteStr

/-- One INSERT statement exactly as claim C1 states it: all four string-typed
columns (`sheet`, `address`, `data_type`, `value`) quoted with embedded quotes
doubled, `formula` NULL when absent and quoted-doubled otherwise, `row` and
`col` bare decimal integers, column order matching the CREATE statement. -/
def claimed_insert_line (cell : CellData) : String :=
  "INSERT INTO cell_data VALUES (" ++ spec_quote cell.sheet ++ "," ++
    spec_quote cell.address ++ "," ++ toString cell.row ++ "," ++ toString cell.col ++ "," ++
    spec_quote cell.data_type ++ "," ++ spec_quote cell.value ++ "," ++
    (match cell.formula with
      | some f => spec_quote f
      | none => "NULL") ++ ");\n"

/-- The relational-insert output exactly as claim C1 states it. -/
def claimed_to_sql (wb : Workbook) : String :=
  create_line ++ joinStrings (wb.cells.map claimed_insert_line)

/-- One INSERT statement as the amended claim states it: identical to
`claimed_insert_line` except that the `address` column, while still quoted, is
interpolated verbatim with no quote doubling. -/
def amended_insert_line (cell : CellData) : String :=
  "INSERT INTO cell_data VALUES (" ++ spec_quote cell.sheet ++ "," ++
    (quoteStr ++ cell.address ++ quoteStr) ++ "," ++ toString cell.row ++ "," ++ toString cell.col ++ "," ++
    spec_quote cell.data_type ++ "," ++ spec_quote cell.value ++ "," ++
    (match cell.formula with
      | some f => spec_quote f
      | none => "NULL") ++ ");\n"

/-- The relational-insert output as the amended claim states it. -/
def amended_to_sql (wb : Workbook) : String :=
  create_line ++ joinStrings (wb.cells.map amended_insert_line)

/-- A workbook holding one cell whose address contains a single quote. -/
def c1_workbook : Workbook :=
  { sheets := []
    cells := [{ sheet := "S", address := String.mk ['A', quoteChar, '1'], row := 1, col := 1,
                data_type := "String", value := "v", formula := none }]
    merged_ranges := [] }

theorem replace_quotes_eq_spec_escape (s : String) :
    replace_quotes s = String.mk (spec_escape s.data) := by
  unfold replace_quotes
  congr 1
  induction s.data with
  | nil => rfl
  | cons c cs ih =>
    by_cases h : c = quoteChar <;> simp [spec_escape, h, ih]

theorem insert_line_eq_amended (cell : CellData) :
    insert_line cell = amended_insert_line cell := by
  unfold insert_line amended_insert_line spec_quote formula_sql
  cases cell.formula <;>
    simp only [replace_quotes_eq_spec_escape, String.append_assoc]

theorem to_sql_foldl_join (cells : List CellData) : ∀ s : String,
    cells.foldl (fun sql cell => sql ++ insert_line cell) s = s ++ joinStrings (cells.map insert_line) := by
  induction cells with
  | nil => intro s; simp [joinStrings, String.append_empty]
  | cons c cs ih =>
    intro s
    simp only [List.foldl_cons, List.map_cons, joinStrings, ih, String.append_assoc]

set_option maxRecDepth 10000 in
set_option maxHeartbeats 2000000 in
/-- C1 counterexample: on a workbook with one cell whose address contains a
single quote, `to_sql` does not produce the output the claim describes,
because the source interpolates `address` without doubling its quotes. -/
theorem to_sql_claimed_counterexample :
    to_sql c1_workbook ≠ claimed_to_sql c1_workbook := by decide

theorem joinStrings_nil : joinStrings [] = "" := rfl

theorem joinStrings_cons (x : String) (xs : List String) :
    joinStrings (x :: xs) = x ++ joinStrings xs := rfl

theorem join_map_insert_eq_amended (cells : List CellData) :
    joinStrings (cells.map insert_line) = joinStrings (cells.map amended_insert_line) := by
  induction cells with
  | nil => simp only [List.map_nil]
  | cons c cs ih =>
    simp only [List.map_cons, joinStrings_cons, insert_line_eq_amended, ih]

/-- C1 (amended): `to_sql` emits the fixed CREATE TABLE cell_data line
followed by exactly one INSERT per cell in `cells` order, column order
matching the CREATE statement; `sheet`, `data_type` and `value` are quoted
with embedded single quotes doubled, `formula` is NULL when absent and quoted
with doubled quotes otherwise, `row` and `col` are bare decimal integers, and
`address` is quoted but interpolated verbatim (its quotes are not doubled). -/
theorem to_sql_shape (wb : Workbook) : to_sql wb = amended_to_sql wb := by
  rw [to_sql, amended_to_sql, to_sql_foldl_join, join_map_insert_eq_amended]

/-- The error-tag type carried by the `Data::Error` variant of the container
collaborator (the calamine crate`s CellErrorType).  The spec only requires the
tag to render as stable text; the strings below are the derived debug names
used by the `{:?}` formatting at main.rs 177. -/
inductive CellErrorType where
  | div0
  | na
  | name
  | null
  | num
  | ref
  | value
  | gettingData
deriving Repr, DecidableEq

/-- Debug rendering of the error tag, as interpolated at main.rs 177. -/
def CellErrorType.debugText : CellErrorType → String
  | .div0 => "Div0"
  | .na => "NA"
  | .name => "Name"
  | .null => "Null"
  | .num => "Num"
  | .ref => "Ref"
  | .value => "Value"
  | .gettingData => "GettingData"

/-- The tagged raw-value union delivered by the container collaborator
(calamine`s `Data`, matched at main.rs 171-181).  The float payload `F` and
native date-time payload `D` are abstract: their textual renderings
(`f.to_string()`, `dt.to_string()`) are collaborator-supplied functions. -/
inductive Data (F D : Type) where
  | empty
  | string (s : String)
  | float (f : F)
  | int (i : Int)
  | bool (b : Bool)
  | error (e : CellErrorType)
  | dateTime (dt : D)
  | dateTimeIso (s : String)
  | durationIso (s : String)
deriving Repr, DecidableEq

/-- The cell-value classification match of `parse_excel` (main.rs 171-181):
`Data::Empty` hits the `continue` arm (no cell, here `none`), every other
variant yields the `(data_type, value, formula)` triple of the source.
`ftos` and `dtos` are the collaborator renderings of the float and native
date-time payloads. -/
def classify_data {F D : Type} (ftos : F → String) (dtos : D → String) :
    Data F D → Option (String × String × Option String)
  | .empty => none
  | .string s => some ("String", s, none)
  | .float f => some ("Number", ftos f, none)
  | .int i => some ("Number", toString i, none)
  | .bool b => some ("Boolean", toString b, none)
  | .error e => some ("Error", e.debugText, none)
  | .dateTime dt => some ("DateTime", dtos dt, none)
  | .dateTimeIso s => some ("DateTimeIso", s, none)
  | .durationIso s => some ("DurationIso", s, none)

/-- One cell of `parse_csv` (main.rs 121-135): 0-based record/field position
to a Cell with 1-based coordinates, String type and the verbatim field text.
The casts mirror the source: the address column letter uses
`(col_idx + 1) as u32` while the `col` field uses `col_idx as u32 + 1`. -/
def csv_cell (row_idx col_idx : Nat) (field : String) : CellData :=
  { sheet := "Sheet1"
    address := col_to_letter (asU32 (col_idx + 1)) ++ toString (asU32 (asU32 row_idx + 1))
    row := asU32 (asU32 row_idx + 1)
    col := asU32 (asU32 col_idx + 1)
    data_type := "String"
    value := field
    formula := none }

/-- The inner field loop of `parse_csv` (main.rs 121-136). -/
def csv_record_cells (row_idx : Nat) (record : List String) : List CellData :=
  record.enum.map fun p => csv_cell row_idx p.1 p.2

/-- The record loop of `parse_csv` (main.rs 119-137).  The byte-level CSV
decoding is the external csv-crate collaborator; it hands the loop a stream of
fallible records (`rdr.records()`), embedded here as a list of `Except`
values.  The first failing record aborts with its message (main.rs 120). -/
def parse_csv_go : Nat → List (Except String (List String)) → Except String (List CellData)
  | _, [] => .ok []
  | _, .error e :: _ => .error e
  | row_idx, .ok record :: rest =>
    match parse_csv_go (row_idx + 1) rest with
    | .error e => .error e
    | .ok tail => .ok (csv_record_cells row_idx record ++ tail)

/-- Embedding of `fn parse_csv` (main.rs 113-148). -/
def parse_csv (records : List (Except String (List String))) : Except String Workbook :=
  match parse_csv_go 0 records with
  | .error e => .error e
  | .ok cells =>
      .ok { sheets := [{ name := "Sheet1", index := 0, hidden := false }]
            cells := cells
            merged_ranges := [] }

/-- The container collaborator of `parse_excel` as the spec`s section 6
describes it: an ordered list of sheet names, and per sheet name a fallible
rectangular range read delivering `(row, col, raw value)` triples with 0-based
coordinates (`excel.sheet_names()` / `excel.worksheet_range(name)`). -/
structure XlsxSource (F D : Type) where
  sheet_names : List String
  worksheet_range : String → Except String (List (Nat × Nat × Data F D))

/-- One cell of `parse_excel` (main.rs 170, 182-190) given the classified
triple of a non-empty raw value at 0-based coordinates `(r, c)`. -/
def excel_cell (name : String) (r c : Nat) (dt val : String) (formula : Option String) : CellData :=
  { sheet := name
    address := col_to_letter (asU32 (asU32 c + 1)) ++ toString (asU32 (asU32 r + 1))
    row := asU32 (asU32 r + 1)
    col := asU32 (asU32 c + 1)
    data_type := dt
    value := val
    formula := formula }

/-- The per-sheet cell walk of `parse_excel` (main.rs 169-191): classify each
triple, skip `Data::Empty` (the `continue` arm), push every other cell in
range order. -/
def sheet_cells {F D : Type} (ftos : F → String) (dtos : D → String) (name : String) :
    List (Nat × Nat × Data F D) → List CellData
  | [] => []
  | (r, c, v) :: rest =>
    match classify_data ftos dtos v with
    | none => sheet_cells ftos dtos name rest
    | some (dt, val, f) => excel_cell name r c dt val f :: sheet_cells ftos dtos name rest

/-- The sheet loop of `parse_excel` (main.rs 158-192): for each reported sheet
name, in order, record its descriptor and read its range; a failing range read
aborts the whole conversion with a message naming the sheet (main.rs 165-167). -/
def parse_excel_go {F D : Type} (ftos : F → String) (dtos : D → String)
    (src : XlsxSource F D) : Nat → List String → Except String (List SheetMetadata × List CellData)
  | _, [] => .ok ([], [])
  | idx, name :: rest =>
    match src.worksheet_range name with
    | .error e => .error ("Error reading sheet " ++ name ++ ": " ++ e)
    | .ok range =>
      match parse_excel_go ftos dtos src (idx + 1) rest with
      | .error e => .error e
      | .ok (sheets, cells) =>
          .ok ({ name := name, index := idx, hidden := false } :: sheets,
               sheet_cells ftos dtos name range ++ cells)

/-- Embedding of `fn parse_excel` (main.rs 150-199).  The byte-level container
opening (`Xlsx::new`, main.rs 151-152) is the external collaborator; its
outcome is the `opened` argument, and an open failure aborts with the
formatted open-error message. -/
def parse_excel {F D : Type} (ftos : F → String) (dtos : D → String)
    (opened : Except String (XlsxSource F D)) : Except String Workbook :=
  match opened with
  | .error e => .error ("Excel open error: " ++ e)
  | .ok src =>
    match parse_excel_go ftos dtos src 0 src.sheet_names with
    | .error e => .error e
    | .ok (sheets, cells) =>
        .ok { sheets := sheets, cells := cells, merged_ranges := [] }

/-- The serializer dispatch of `convert_handler` (main.rs 86-92).  The json,
yaml and xml serializers are external serde collaborators; per the spec
(section 4.4) each is a pure total function from the model to a payload, so
they are parameters here, while `to_sql` is the in-repository serializer.  An
unrecognized format name yields `none` (the BAD_REQUEST arm). -/
def serialize_body (json_ser yaml_ser xml_ser : Workbook → String)
    (format : String) (wb : Workbook) : Option String :=
  match format with
  | "json" => some (json_ser wb)
  | "yaml" => some (yaml_ser wb)
  | "xml" => some (xml_ser wb)
  | "sql" => some (to_sql wb)
  | _ => none

/-- The content-type dispatch of `convert_handler` (main.rs 94-100). -/
def content_type_for (format : String) : String :=
  match format with
  | "json" => "application/json"
  | "yaml" => "application/x-yaml"
  | "xml" => "application/xml"
  | "sql" => "text/plain"
  | _ => "text/plain"

/-- C10: `col_to_letter` is total (it is a function defined on all of `Nat`,
hence on every `u32` value) and on the contract-violating input 0 the loop
body never runs, so it returns the empty string; an address built from column
0 therefore degenerates to the bare decimal row number. -/
theorem col_to_letter_zero_empty :
    col_to_letter 0 = "" ∧ ∀ row : Nat, col_to_letter 0 ++ toString row = toString row := by
  refine ⟨rfl, fun row => ?_⟩
  exact String.empty_append _

/-- C5: the classifier is total on non-empty raw values and maps every
variant to exactly one CellType with its canonical string: both numeric
variants to Number (the integral one via its decimal form, the floating one
via the collaborator rendering `ftos`), booleans to Boolean with literal
true/false, ISO date-time and duration strings verbatim with their own types,
a native date-time to DateTime via its display rendering `dtos`, and error
variants to Error rendering the error tag as text. -/
theorem classify_data_taxonomy :
    ∀ (F D : Type) (ftos : F → String) (dtos : D → String),
      (∀ v : Data F D, v ≠ .empty → ∃ r, classify_data ftos dtos v = some r) ∧
      (∀ s, classify_data ftos dtos (.string s) = some ("String", s, none)) ∧
      (∀ f, classify_data ftos dtos (.float f) = some ("Number", ftos f, none)) ∧
      (∀ i, classify_data ftos dtos (.int i) = some ("Number", toString i, none)) ∧
      classify_data ftos dtos (.bool true) = some ("Boolean", "true", none) ∧
      classify_data ftos dtos (.bool false) = some ("Boolean", "false", none) ∧
      (∀ e, classify_data ftos dtos (.error e) = some ("Error", e.debugText, none)) ∧
      (∀ dt, classify_data ftos dtos (.dateTime dt) = some ("DateTime", dtos dt, none)) ∧
      (∀ s, classify_data ftos dtos (.dateTimeIso s) = some ("DateTimeIso", s, none)) ∧
      (∀ s, classify_data ftos dtos (.durationIso s) = some ("DurationIso", s, none)) := by
  intro F D ftos dtos
  refine ⟨fun v hv => ?_, fun s => rfl, fun f => rfl, fun i => rfl, rfl, rfl,
    fun e => rfl, fun dt => rfl, fun s => rfl, fun s => rfl⟩
  cases v with
  | empty => exact absurd rfl hv
  | string s => exact ⟨_, rfl⟩
  | float f => exact ⟨_, rfl⟩
  | int i => exact ⟨_, rfl⟩
  | bool b => exact ⟨_, rfl⟩
  | error e => exact ⟨_, rfl⟩
  | dateTime dt => exact ⟨_, rfl⟩
  | dateTimeIso s => exact ⟨_, rfl⟩
  | durationIso s => exact ⟨_, rfl⟩

/-- Witness instantiating the totality part of C5 at the concrete raw value
`Data.int 5` with unit payload types. -/
theorem classify_data_taxonomy_witness :
    ∃ r, classify_data (fun _ : Unit => "3.5") (fun _ : Unit => "dt")
      (Data.int 5) = some r :=
  (classify_data_taxonomy Unit Unit (fun _ => "3.5") (fun _ => "dt")).1
    (Data.int 5) (by simp)

/-- C9: for every workbook and each of the four recognized format names the
serializer dispatch returns a payload; the dispatch and `to_sql` are pure
functions of the workbook, and the external serde serializers enter as total
collaborator functions, so no serialization branch can fail or mutate the
workbook. -/
theorem serialize_body_total :
    ∀ (json_ser yaml_ser xml_ser : Workbook → String) (wb : Workbook) (format : String),
      format = "json" ∨ format = "yaml" ∨ format = "xml" ∨ format = "sql" →
      ∃ payload, serialize_body json_ser yaml_ser xml_ser format wb = some payload := by
  intro json_ser yaml_ser xml_ser wb format h
  rcases h with h | h | h | h <;> subst h <;> exact ⟨_, rfl⟩

/-- Witness instantiating C9 at the sql format on an empty workbook. -/
theorem serialize_body_total_witness :
    ∃ payload, serialize_body (fun _ => "j") (fun _ => "y") (fun _ => "x") "sql"
      { sheets := [], cells := [], merged_ranges := [] } = some payload :=
  serialize_body_total (fun _ => "j") (fun _ => "y") (fun _ => "x")
    { sheets := [], cells := [], merged_ranges := [] } "sql"
    (Or.inr (Or.inr (Or.inr rfl)))

/-- The record stream the csv collaborator produces for the input bytes of
the spec`s concrete example "a,b\n1,2\n": two well-formed records. -/
def c7_records : List (Except String (List String)) :=
  [Except.ok ["a", "b"], Except.ok ["1", "2"]]

set_option maxRecDepth 10000 in
/-- C7: on the two-record stream decoded from "a,b\n1,2\n", `parse_csv`
returns one SheetDescriptor named Sheet1 (index 0, not hidden) and exactly
four String-typed cells at A1, B1, A2, B2 with values a, b, 1, 2 in that
order; the first record is ordinary data, not a header. -/
theorem parse_csv_concrete_example :
    parse_csv c7_records =
      Except.ok
        { sheets := [{ name := "Sheet1", index := 0, hidden := false }]
          cells :=
            [{ sheet := "Sheet1", address := "A1", row := 1, col := 1,
               data_type := "String", value := "a", formula := none },
             { sheet := "Sheet1", address := "B1", row := 1, col := 2,
               data_type := "String", value := "b", formula := none },
             { sheet := "Sheet1", address := "A2", row := 2, col := 1,
               data_type := "String", value := "1", formula := none },
             { sheet := "Sheet1", address := "B2", row := 2, col := 2,
               data_type := "String", value := "2", formula := none }]
          merged_ranges := [] } := by
  rfl

theorem parse_excel_go_sheets {F D : Type} (ftos : F → String) (dtos : D → String)
    (src : XlsxSource F D) :
    ∀ (names : List String) (idx : Nat) (sheets : List SheetMetadata) (cells : List CellData),
      parse_excel_go ftos dtos src idx names = .ok (sheets, cells) →
      sheets = (names.enumFrom idx).map fun p => { name := p.2, index := p.1, hidden := false } := by
  intro names
  induction names with
  | nil =>
    intro idx sheets cells h
    simp only [parse_excel_go, Except.ok.injEq, Prod.mk.injEq] at h
    simp [← h.1, List.enumFrom]
  | cons name rest ih =>
    intro idx sheets cells h
    cases hr : src.worksheet_range name with
    | error e => simp [parse_excel_go, hr] at h
    | ok range =>
      cases hrec : parse_excel_go ftos dtos src (idx + 1) rest with
      | error e => simp [parse_excel_go, hr, hrec] at h
      | ok pair =>
        obtain ⟨sheets', cells'⟩ := pair
        simp only [parse_excel_go, hr, hrec, Except.ok.injEq, Prod.mk.injEq] at h
        simp [← h.1, List.enumFrom, ih (idx + 1) sheets' cells' hrec]

/-- C8: whenever the sheet-container adapter succeeds, it produces exactly one
descriptor per collaborator-reported sheet name, in the reported order, with
index values exactly 0..n-1 (the enumeration of the reported list) and
hidden always false. -/
theorem parse_excel_sheet_indices :
    ∀ (F D : Type) (ftos : F → String) (dtos : D → String) (src : XlsxSource F D) (wb : Workbook),
      parse_excel ftos dtos (.ok src) = .ok wb →
      wb.sheets.length = src.sheet_names.length ∧
      wb.sheets = src.sheet_names.enum.map fun p => { name := p.2, index := p.1, hidden := false } := by
  intro F D ftos dtos src wb h
  cases hgo : parse_excel_go ftos dtos src 0 src.sheet_names with
  | error e => simp [parse_excel, hgo] at h
  | ok pair =>
    obtain ⟨sheets, cells⟩ := pair
    simp only [parse_excel, hgo, Except.ok.injEq] at h
    have hs := parse_excel_go_sheets ftos dtos src src.sheet_names 0 sheets cells hgo
    constructor
    · rw [← h, hs]
      simp [List.enum]
    · rw [← h, hs]
      rfl

/-- A two-sheet container source with empty ranges, for the C8 witness. -/
def c8_src : XlsxSource Unit Unit :=
  { sheet_names := ["Alpha", "Beta"], worksheet_range := fun _ => .ok [] }

/-- Witness instantiating C8 on a concrete two-sheet source. -/
theorem parse_excel_sheet_indices_witness :
    ({ sheets := [{ name := "Alpha", index := 0, hidden := false },
                  { name := "Beta", index := 1, hidden := false }],
       cells := [], merged_ranges := [] } : Workbook).sheets.length
        = c8_src.sheet_names.length ∧
    ({ sheets := [{ name := "Alpha", index := 0, hidden := false },
                  { name := "Beta", index := 1, hidden := false }],
       cells := [], merged_ranges := [] } : Workbook).sheets
        = c8_src.sheet_names.enum.map fun p => { name := p.2, index := p.1, hidden := false } :=
  parse_excel_sheet_indices Unit Unit (fun _ => "f") (fun _ => "d") c8_src
    { sheets := [{ name := "Alpha", index := 0, hidden := false },
                 { name := "Beta", index := 1, hidden := false }],
      cells := [], merged_ranges := [] } rfl

theorem asU32_succ (n : Nat) : asU32 (n + 1) = asU32 (asU32 n + 1) := by
  unfold asU32
  omega

theorem parse_csv_go_address :
    ∀ (records : List (Except String (List String))) (idx : Nat) (cells : List CellData),
      parse_csv_go idx records = .ok cells →
      ∀ cell ∈ cells, cell.address = col_to_letter cell.col ++ toString cell.row := by
  intro records
  induction records with
  | nil =>
    intro idx cells h
    simp only [parse_csv_go, Except.ok.injEq] at h
    simp [← h]
  | cons r rest ih =>
    intro idx cells h
    cases r with
    | error e => simp [parse_csv_go] at h
    | ok record =>
      cases hrec : parse_csv_go (idx + 1) rest with
      | error e => simp [parse_csv_go, hrec] at h
      | ok tail =>
        simp only [parse_csv_go, hrec, Except.ok.injEq] at h
        intro cell hc
        rw [← h] at hc
        rcases List.mem_append.mp hc with hm | hm
        · simp only [csv_record_cells, List.mem_map] at hm
          obtain ⟨p, _, hp⟩ := hm
          rw [← hp]
          simp only [csv_cell]
          rw [asU32_succ p.1]
        · exact ih (idx + 1) tail hrec cell hm

theorem sheet_cells_address {F D : Type} (ftos : F → String) (dtos : D → String) (name : String) :
    ∀ (l : List (Nat × Nat × Data F D)) (cell : CellData), cell ∈ sheet_cells ftos dtos name l →
      cell.address = col_to_letter cell.col ++ toString cell.row := by
  intro l
  induction l with
  | nil => intro cell hc; simp [sheet_cells] at hc
  | cons t rest ih =>
    obtain ⟨r, c, v⟩ := t
    intro cell hc
    cases hcl : classify_data ftos dtos v with
    | none =>
      rw [sheet_cells, hcl] at hc
      exact ih cell hc
    | some triple =>
      obtain ⟨dt, val, f⟩ := triple
      rw [sheet_cells, hcl] at hc
      rcases List.mem_cons.mp hc with hm | hm
      · rw [hm]
        rfl
      · exact ih cell hm

theorem parse_excel_go_address {F D : Type} (ftos : F → String) (dtos : D → String)
    (src : XlsxSource F D) :
    ∀ (names : List String) (idx : Nat) (sheets : List SheetMetadata) (cells : List CellData),
      parse_excel_go ftos dtos src idx names = .ok (sheets, cells) →
      ∀ cell ∈ cells, cell.address = col_to_letter cell.col ++ toString cell.row := by
  intro names
  induction names with
  | nil =>
    intro idx sheets cells h
    simp only [parse_excel_go, Except.ok.injEq, Prod.mk.injEq] at h
    simp [← h.2]
  | cons name rest ih =>
    intro idx sheets cells h
    cases hr : src.worksheet_range name with
    | error e => simp [parse_excel_go, hr] at h
    | ok range =>
      cases hrec : parse_excel_go ftos dtos src (idx + 1) rest with
      | error e => simp [parse_excel_go, hr, hrec] at h
      | ok pair =>
        obtain ⟨sheets', cells'⟩ := pair
        simp only [parse_excel_go, hr, hrec, Except.ok.injEq, Prod.mk.injEq] at h
        intro cell hc
        rw [← h.2] at hc
        rcases List.mem_append.mp hc with hm | hm
        · exact sheet_cells_address ftos dtos name range cell hm
        · exact ih (idx + 1) sheets' cells' hrec cell hm

/-- C4: every cell either ingestion adapter produces has an `address` equal to
the coordinate-codec encoding of its own `(col, row)` fields:
`col_to_letter col` concatenated with the decimal string of `row`. -/
theorem cell_address_encodes_coordinates :
    (∀ (records : List (Except String (List String))) (wb : Workbook),
        parse_csv records = .ok wb →
        ∀ cell ∈ wb.cells, cell.address = col_to_letter cell.col ++ toString cell.row) ∧
    (∀ (F D : Type) (ftos : F → String) (dtos : D → String) (src : XlsxSource F D) (wb : Workbook),
        parse_excel ftos dtos (.ok src) = .ok wb →
        ∀ cell ∈ wb.cells, cell.address = col_to_letter cell.col ++ toString cell.row) := by
  constructor
  · intro records wb h
    cases hgo : parse_csv_go 0 records with
    | error e => simp [parse_csv, hgo] at h
    | ok cells =>
      simp only [parse_csv, hgo, Except.ok.injEq] at h
      intro cell hc
      rw [← h] at hc
      exact parse_csv_go_address records 0 cells hgo cell hc
  · intro F D ftos dtos src wb h
    cases hgo : parse_excel_go ftos dtos src 0 src.sheet_names with
    | error e => simp [parse_excel, hgo] at h
    | ok pair =>
      obtain ⟨sheets, cells⟩ := pair
      simp only [parse_excel, hgo, Except.ok.injEq] at h
      intro cell hc
      rw [← h] at hc
      exact parse_excel_go_address ftos dtos src src.sheet_names 0 sheets cells hgo cell hc

/-- A one-record, one-field csv stream for the C4 witness. -/
def c4_records : List (Except String (List String)) := [Except.ok ["x"]]

/-- The cell `parse_csv` produces from `c4_records`. -/
def c4_cell : CellData :=
  { sheet := "Sheet1", address := "A1", row := 1, col := 1,
    data_type := "String", value := "x", formula := none }

/-- The workbook `parse_csv` produces from `c4_records`. -/
def c4_workbook : Workbook :=
  { sheets := [{ name := "Sheet1", index := 0, hidden := false }]
    cells := [c4_cell]
    merged_ranges := [] }

/-- Witness instantiating the csv half of C4 on a concrete one-cell stream. -/
theorem cell_address_encodes_coordinates_witness :
    c4_cell.address = col_to_letter c4_cell.col ++ toString c4_cell.row :=
  cell_address_encodes_coordinates.1 c4_records c4_workbook rfl c4_cell (by simp [c4_workbook])

/-- Whether a raw value is a real datum, i.e. not the `Data::Empty` variant
that `parse_excel` skips with `continue` (main.rs 172). -/
def is_nonempty_data {F D : Type} : Data F D → Bool
  | .empty => false
  | _ => true

/-- Number of non-empty raw values in a range. -/
def count_nonempty {F D : Type} (l : List (Nat × Nat × Data F D)) : Nat :=
  (l.filter fun t => is_nonempty_data t.2.2).length

/-- Number of non-empty raw values a sheet contributes (0 if its range read
fails, a case the success hypotheses below exclude). -/
def range_cell_count {F D : Type} (src : XlsxSource F D) (name : String) : Nat :=
  match src.worksheet_range name with
  | .ok l => count_nonempty l
  | .error _ => 0

/-- Number of fields a csv record contributes (0 for a malformed record, a
case the success hypotheses below exclude). -/
def record_field_count : Except String (List String) → Nat
  | .ok record => record.length
  | .error _ => 0

/-- A one-record csv stream whose only field is the empty string. -/
def c3_records : List (Except String (List String)) := [Except.ok [""]]

/-- C3 counterexample: the delimited-text adapter emits a Cell for an
empty-string source field: on the record stream of the input bytes ",",
`parse_csv` succeeds and its single produced cell has the empty value, so not
every entry of `cells` corresponds to a non-empty source value. -/
theorem parse_csv_empty_value_counterexample :
    (parse_csv c3_records).map (fun wb => wb.cells.map fun c => (c.address, c.value))
      = Except.ok [("A1", "")] := by
  rfl

theorem sheet_cells_length {F D : Type} (ftos : F → String) (dtos : D → String) (name : String) :
    ∀ l : List (Nat × Nat × Data F D), (sheet_cells ftos dtos name l).length = count_nonempty l := by
  intro l
  induction l with
  | nil => rfl
  | cons t rest ih =>
    obtain ⟨r, c, v⟩ := t
    cases v <;>
      simp [sheet_cells, classify_data, count_nonempty, is_nonempty_data, List.filter, ih]

theorem parse_excel_go_cell_count {F D : Type} (ftos : F → String) (dtos : D → String)
    (src : XlsxSource F D) :
    ∀ (names : List String) (idx : Nat) (sheets : List SheetMetadata) (cells : List CellData),
      parse_excel_go ftos dtos src idx names = .ok (sheets, cells) →
      cells.length = (names.map (range_cell_count src)).sum := by
  intro names
  induction names with
  | nil =>
    intro idx sheets cells h
    simp only [parse_excel_go, Except.ok.injEq, Prod.mk.injEq] at h
    simp [← h.2]
  | cons name rest ih =>
    intro idx sheets cells h
    cases hr : src.worksheet_range name with
    | error e => simp [parse_excel_go, hr] at h
    | ok range =>
      cases hrec : parse_excel_go ftos dtos src (idx + 1) rest with
      | error e => simp [parse_excel_go, hr, hrec] at h
      | ok pair =>
        obtain ⟨sheets', cells'⟩ := pair
        simp only [parse_excel_go, hr, hrec, Except.ok.injEq, Prod.mk.injEq] at h
        rw [← h.2]
        simp [List.length_append, sheet_cells_length, ih (idx + 1) sheets' cells' hrec,
          range_cell_count, hr]

theorem parse_csv_go_cell_count :
    ∀ (records : List (Except String (List String))) (idx : Nat) (cells : List CellData),
      parse_csv_go idx records = .ok cells →
      cells.length = (records.map record_field_count).sum := by
  intro records
  induction records with
  | nil =>
    intro idx cells h
    simp only [parse_csv_go, Except.ok.injEq] at h
    simp [← h]
  | cons r rest ih =>
    intro idx cells h
    cases r with
    | error e => simp [parse_csv_go] at h
    | ok record =>
      cases hrec : parse_csv_go (idx + 1) rest with
      | error e => simp [parse_csv_go, hrec] at h
      | ok tail =>
        simp only [parse_csv_go, hrec, Except.ok.injEq] at h
        rw [← h]
        simp [List.length_append, csv_record_cells, record_field_count,
          ih (idx + 1) tail hrec]

/-- C3 (amended): the sheet-container adapter preserves the sparsity
invariant - on success it emits exactly one Cell per non-empty raw value of
each sheet range, and none for `Data::Empty` entries - while the
delimited-text adapter emits exactly one Cell per field of every record,
including fields whose text is the empty string (their value is carried
verbatim), so its cells need not come from non-empty source values. -/
theorem ingestion_cell_counts :
    (∀ (F D : Type) (ftos : F → String) (dtos : D → String) (src : XlsxSource F D) (wb : Workbook),
        parse_excel ftos dtos (.ok src) = .ok wb →
        wb.cells.length = (src.sheet_names.map (range_cell_count src)).sum) ∧
    (∀ (records : List (Except String (List String))) (wb : Workbook),
        parse_csv records = .ok wb →
        wb.cells.length = (records.map record_field_count).sum) := by
  constructor
  · intro F D ftos dtos src wb h
    cases hgo : parse_excel_go ftos dtos src 0 src.sheet_names with
    | error e => simp [parse_excel, hgo] at h
    | ok pair =>
      obtain ⟨sheets, cells⟩ := pair
      simp only [parse_excel, hgo, Except.ok.injEq] at h
      rw [← h]
      exact parse_excel_go_cell_count ftos dtos src src.sheet_names 0 sheets cells hgo
  · intro records wb h
    cases hgo : parse_csv_go 0 records with
    | error e => simp [parse_csv, hgo] at h
    | ok cells =>
      simp only [parse_csv, hgo, Except.ok.injEq] at h
      rw [← h]
      exact parse_csv_go_cell_count records 0 cells hgo

/-- A one-sheet container source holding one empty and two non-empty cells,
for the C3 witness. -/
def c3_src : XlsxSource Unit Unit :=
  { sheet_names := ["S"]
    worksheet_range := fun _ =>
      .ok [(0, 0, Data.string "x"), (0, 1, Data.empty), (2, 2, Data.bool true)] }

/-- The workbook `parse_excel` produces from `c3_src`: the `Data.empty` entry
yields no cell. -/
def c3_workbook : Workbook :=
  { sheets := [{ name := "S", index := 0, hidden := false }]
    cells :=
      [{ sheet := "S", address := "A1", row := 1, col := 1,
         data_type := "String", value := "x", formula := none },
       { sheet := "S", address := "C3", row := 3, col := 3,
         data_type := "Boolean", value := "true", formula := none }]
    merged_ranges := [] }

/-- Witness instantiating both halves of the amended C3 on concrete inputs. -/
theorem ingestion_cell_counts_witness :
    c3_workbook.cells.length = (c3_src.sheet_names.map (range_cell_count c3_src)).sum ∧
    c4_workbook.cells.length = (c4_records.map record_field_count).sum :=
  ⟨ingestion_cell_counts.1 Unit Unit (fun _ => "f") (fun _ => "d") c3_src c3_workbook rfl,
   ingestion_cell_counts.2 c4_records c4_workbook rfl⟩

theorem parse_csv_go_first_error :
    ∀ (pre : List (Except String (List String))) (idx : Nat) (e : String)
      (rest : List (Except String (List String))),
      (∀ r ∈ pre, r.isOk = true) →
      parse_csv_go idx (pre ++ Except.error e :: rest) = .error e := by
  intro pre
  induction pre with
  | nil => intro idx e rest _; simp [parse_csv_go]
  | cons r pre' ih =>
    intro idx e rest h
    have hr := h r (by simp)
    cases r with
    | error e2 => simp [Except.isOk, Except.toBool] at hr
    | ok record =>
      have htail := ih (idx + 1) e rest (fun x hx => h x (by simp [hx]))
      simp [parse_csv_go, htail]

theorem parse_excel_go_first_error {F D : Type} (ftos : F → String) (dtos : D → String)
    (src : XlsxSource F D) :
    ∀ (pre : List String) (idx : Nat) (name : String) (rest : List String) (e : String),
      (∀ nm ∈ pre, (src.worksheet_range nm).isOk = true) →
      src.worksheet_range name = .error e →
      parse_excel_go ftos dtos src idx (pre ++ name :: rest)
        = .error ("Error reading sheet " ++ name ++ ": " ++ e) := by
  intro pre
  induction pre with
  | nil =>
    intro idx name rest e _ herr
    simp [parse_excel_go, herr]
  | cons nm pre' ih =>
    intro idx name rest e hpre herr
    have hok := hpre nm (by simp)
    cases hr : src.worksheet_range nm with
    | error e2 => rw [hr] at hok; simp [Except.isOk, Except.toBool] at hok
    | ok range =>
      have htail := ih (idx + 1) name rest e (fun x hx => hpre x (by simp [hx])) herr
      simp [parse_excel_go, hr, htail]

/-- C6: every ingestion failure aborts the whole conversion with an error and
no partial workbook: a malformed record in the delimited-text stream (all
records before it well-formed) yields exactly its parse error, a container
open failure yields the formatted open error, and a failing range read for
one sheet (all sheets before it readable) yields an error message naming that
sheet. -/
theorem ingestion_errors_abort :
    (∀ (pre : List (Except String (List String))) (e : String)
        (rest : List (Except String (List String))),
        (∀ r ∈ pre, r.isOk = true) →
        parse_csv (pre ++ Except.error e :: rest) = .error e) ∧
    (∀ (F D : Type) (ftos : F → String) (dtos : D → String) (e : String),
        parse_excel ftos dtos (Except.error e : Except String (XlsxSource F D))
          = .error ("Excel open error: " ++ e)) ∧
    (∀ (F D : Type) (ftos : F → String) (dtos : D → String) (src : XlsxSource F D)
        (pre : List String) (name : String) (rest : List String) (e : String),
        src.sheet_names = pre ++ name :: rest →
        (∀ nm ∈ pre, (src.worksheet_range nm).isOk = true) →
        src.worksheet_range name = .error e →
        parse_excel ftos dtos (.ok src)
          = .error ("Error reading sheet " ++ name ++ ": " ++ e)) := by
  refine ⟨fun pre e rest h => ?_, fun F D ftos dtos e => rfl,
    fun F D ftos dtos src pre name rest e hnames hpre herr => ?_⟩
  · have hgo := parse_csv_go_first_error pre 0 e rest h
    simp [parse_csv, hgo]
  · have hgo := parse_excel_go_first_error ftos dtos src pre 0 name rest e hpre herr
    rw [← hnames] at hgo
    simp [parse_excel, hgo]

/-- A two-sheet container source whose second sheet range fails, for the C6
witness. -/
def c6_src : XlsxSource Unit Unit :=
  { sheet_names := ["A", "B"]
    worksheet_range := fun nm =>
      if nm = "B" then .error "range gone" else .ok [] }

/-- Witness instantiating the three abort cases of C6 on concrete inputs. -/
theorem ingestion_errors_abort_witness :
    parse_csv [Except.ok ["a"], Except.error "bad record", Except.ok ["b"]]
      = .error "bad record" ∧
    parse_excel (fun _ : Unit => "f") (fun _ : Unit => "d")
      (Except.error "corrupt" : Except String (XlsxSource Unit Unit))
      = .error ("Excel open error: " ++ "corrupt") ∧
    parse_excel (fun _ : Unit => "f") (fun _ : Unit => "d") (.ok c6_src)
      = .error ("Error reading sheet " ++ "B" ++ ": " ++ "range gone") :=
  ⟨ingestion_errors_abort.1 [Except.ok ["a"]] "bad record" [Except.ok ["b"]] (by decide),
   ingestion_errors_abort.2.1 Unit Unit (fun _ => "f") (fun _ => "d") "corrupt",
   ingestion_errors_abort.2.2 Unit Unit (fun _ => "f") (fun _ => "d") c6_src
     ["A"] "B" [] "range gone" rfl (by decide) rfl⟩
